import Mathlib

/-!
Shallow embedding of the comic-library backend (`src/server.js`) resource and
persistence layer: the categories/comics tables, the request handlers for
listing, creation, update, chapter patch, stats, bulk upsert, and the
diagnostics endpoint's connection handling.  Tables are modelled as Lean
lists of rows; a query that may fail is modelled by an `Option`al table
(`none` = the query threw or the table is absent); JSON body fields that may
be absent (`undefined`/`null`) are `Option` values; SQL `NOW()` is an explicit
`Nat` timestamp parameter.
-/

namespace ComicBackend

/-- Truthiness of JS on an optional string: `undefined`, `null` and the empty
string are falsy (`if (!title)` in the handlers); every non-empty string is
truthy. -/
def jsFalsy : Option String → Bool
  | none => true
  | some s => s == ""

/-- String value of an optional JSON field, empty when absent; this is also
what the pg driver binds for the parameter (absent becomes SQL NULL, which is
relevant only through `Option` fields kept as `Option` below). -/
def strOf (v : Option String) : String := v.getD ""

/-- JS `v || d` on an optional string: the default replaces a falsy value
(absent, null or empty), any other string stands. -/
def jsOrStr (v : Option String) (d : String) : String :=
  if jsFalsy v then d else strOf v

/-- Category row as served by the API.  Mirrors the `categories` DDL of
`server.js` lines 64-74 and the shape of the `defaultCategories` constant
(lines 35-52); the SERIAL `id` and `created_at` columns are carried by no
claim and are omitted. -/
structure Category where
  category_id : String
  name : String
  code : String
  icon : String
  color : String
deriving DecidableEq, Inhabited

/-- Static default category list of `server.js` lines 35-52, returned whenever
the categories query fails or yields no rows. -/
def defaultCategories : List Category :=
  [ ⟨"hoc-duong", "HỌC ĐƯỜNG", "1111", "fas fa-school", "#6366f1"⟩,
    ⟨"mat-the", "MẠT THẾ", "2222", "fas fa-skull-crossbones", "#ef4444"⟩,
    ⟨"he-thong", "HỆ THỐNG", "3333", "fas fa-cogs", "#10b981"⟩,
    ⟨"xay-dung", "XÂY DỰNG", "4444", "fas fa-building", "#f59e0b"⟩,
    ⟨"di-gioi", "DỊ GIỚI", "5555", "fas fa-globe-asia", "#8b5cf6"⟩,
    ⟨"kinh-doanh", "KINH DOANH", "6666", "fas fa-chart-line", "#06b6d4"⟩,
    ⟨"trung-sinh", "TRÙNG SINH", "7777", "fas fa-redo", "#ec4899"⟩,
    ⟨"ngon", "NGÔN", "8888", "fas fa-heart", "#f43f5e"⟩,
    ⟨"tu-tien", "TU TIÊN", "AAA", "fas fa-mountain", "#22c55e"⟩,
    ⟨"do-thi", "ĐÔ THỊ", "BBB", "fas fa-city", "#3b82f6"⟩,
    ⟨"phan-dien", "PHẢN DIỆN", "CCC", "fas fa-user-ninja", "#0ea5e9"⟩,
    ⟨"vo-han-luu", "VÔ HẠN LƯU", "EEE", "fas fa-infinity", "#a855f7"⟩,
    ⟨"manh", "MẠNH", "DDD", "fas fa-fist-raised", "#f97316"⟩,
    ⟨"quy-than", "QUỶ THẦN", "FFF", "fas fa-ghost", "#6b7280"⟩,
    ⟨"ecchi", "ECCHI", "9999", "fas fa-fire", "#dc2626"⟩,
    ⟨"phim", "PHIM", "0000", "fas fa-film", "#8b5cf6"⟩ ]

/-- Comic row, mirroring the `comics` DDL of `server.js` lines 78-92: nullable
columns (`subcategory`, `chapter`, `rating`, `description`) are `Option`,
`tags` is a text array, timestamps are abstract `Nat` instants.  The SERIAL
`id` column is carried by no claim and is omitted. -/
structure Comic where
  comic_id : String
  title : String
  category_id : String
  subcategory : Option String
  chapter : Option String
  rating : Option String
  tags : List String
  description : Option String
  last_updated : Nat
  created_at : Nat
deriving DecidableEq, Inhabited

/-- Ascending order on category names, the `ORDER BY name` of the categories
query. -/
def catNameLe (a b : Category) : Prop := a.name ≤ b.name

instance : DecidableRel catNameLe := fun a b =>
  inferInstanceAs (Decidable (a.name ≤ b.name))

instance : IsTotal Category catNameLe := ⟨fun a b => le_total a.name b.name⟩

instance : IsTrans Category catNameLe := ⟨fun _ _ _ h h' => le_trans h h'⟩

/-- Descending order on `last_updated`, the `ORDER BY last_updated DESC` of
the comics listing query. -/
def recentFirst (a b : Comic) : Prop := b.last_updated ≤ a.last_updated

instance : DecidableRel recentFirst := fun a b =>
  inferInstanceAs (Decidable (b.last_updated ≤ a.last_updated))

instance : IsTotal Comic recentFirst :=
  ⟨fun a b => (Nat.le_total a.last_updated b.last_updated).symm⟩

instance : IsTrans Comic recentFirst := ⟨fun _ _ _ h h' => Nat.le_trans h' h⟩

/-- GET `/api/categories` (`server.js` lines 265-300).  `db` is the outcome of
the guarded query block: `none` when anything in the `try` block throws (store
unreachable, table absent and self-heal failing, ...), `some rows` when
`SELECT * FROM categories ORDER BY name` succeeds.  The handler returns the
default list on a throw, and also when the query succeeds with zero rows. -/
def listCategories (db : Option (List Category)) : List Category :=
  match db with
  | none => defaultCategories
  | some rows =>
    let sorted := List.insertionSort catNameLe rows
    if sorted.length == 0 then defaultCategories else sorted

/-- Store state seen by GET `/api/stats`: each table is `none` when the
`information_schema` existence probe reports it absent. -/
structure DbState where
  comics : Option (List Comic)
  categories : Option (List Category)

/-- Response shape of GET `/api/stats`. -/
structure StatsRes where
  totalItems : Nat
  totalCategories : Nat
  readingCount : Nat
deriving DecidableEq

/-- Filter of the reading-count query of `server.js` lines 597-600:
`chapter IS NOT NULL AND chapter != '' AND chapter != '0'`. -/
def isReading (r : Comic) : Bool :=
  match r.chapter with
  | none => false
  | some s => s != "" && s != "0"

/-- GET `/api/stats` (`server.js` lines 576-620): count queries against the
comics and categories tables, each guarded by the table-existence probe; a
missing comics table leaves both comic counts at 0, a missing categories
table substitutes the default list's length. -/
def getStats (db : DbState) : StatsRes :=
  let totalItems := match db.comics with
    | none => 0
    | some rows => rows.length
  let readingCount := match db.comics with
    | none => 0
    | some rows => (rows.filter isReading).length
  let totalCategories := match db.categories with
    | none => defaultCategories.length
    | some rows => rows.length
  ⟨totalItems, totalCategories, readingCount⟩

/-- Error outcomes a comics handler can send: a 400 validation error with its
message, the 404 comic-not-found response, or the generic 500. -/
inductive ApiErr
  | badRequest (msg : String)
  | notFound
  | serverError
deriving DecidableEq

/-- Request body of POST `/api/comics` as destructured by the handler
(`server.js` lines 440-448); every field may be absent. -/
structure CreateBody where
  title : Option String
  category_id : Option String
  subcategory : Option String
  chapter : Option String
  rating : Option String
  tags : Option (List String)
  description : Option String
deriving DecidableEq

/-- Row written by the INSERT of the create handler: the VALUES tuple of
`server.js` lines 458-474 with its `|| default` fallbacks, `last_updated`
from the query's `NOW()` and `created_at` from the column default
`CURRENT_TIMESTAMP` (both are the statement instant `now`). -/
def newComicRow (b : CreateBody) (genId : String) (now : Nat) : Comic :=
  { comic_id := genId
    title := strOf b.title
    category_id := strOf b.category_id
    subcategory := some (jsOrStr b.subcategory "")
    chapter := some (jsOrStr b.chapter "")
    rating := some (jsOrStr b.rating "none")
    tags := b.tags.getD []
    description := some (jsOrStr b.description "")
    last_updated := now
    created_at := now }

/-- POST `/api/comics` (`server.js` lines 435-482): reject when `title` or
`category_id` is falsy; otherwise insert `newComicRow` with the
server-generated token `genId`.  An insert colliding with an existing
`comic_id` violates the UNIQUE constraint and is caught as a 500.  Returns
the handler's response and the resulting comics table. -/
def createComic (b : CreateBody) (genId : String) (now : Nat) (st : List Comic) :
    (Except ApiErr Comic) × List Comic :=
  if jsFalsy b.title || jsFalsy b.category_id then
    (.error (.badRequest "Title and category_id are required"), st)
  else if st.any (fun r => r.comic_id == genId) then
    (.error .serverError, st)
  else
    (.ok (newComicRow b genId now), st ++ [newComicRow b genId now])

/-- SQL `COALESCE(param, column)` for a nullable column: the bound parameter
when it is non-null, the stored value otherwise. -/
def coalesce (v old : Option String) : Option String :=
  match v with
  | some c => some c
  | none => old

/-- Request body of PUT `/api/comics/:id` as destructured by the handler
(`server.js` lines 489-495): only these five fields are ever read. -/
structure UpdateBody where
  chapter : Option String
  rating : Option String
  title : Option String
  tags : Option (List String)
  description : Option String
deriving DecidableEq

/-- SET clause of the update query (`server.js` lines 498-504): each supplied
field overwrites, each absent one is kept by `COALESCE`, and `last_updated`
is always set to `NOW()`. -/
def applyUpdate (b : UpdateBody) (now : Nat) (r : Comic) : Comic :=
  { r with
    chapter := coalesce b.chapter r.chapter
    rating := coalesce b.rating r.rating
    title := b.title.getD r.title
    tags := b.tags.getD r.tags
    description := coalesce b.description r.description
    last_updated := now }

/-- PUT `/api/comics/:id` (`server.js` lines 485-520): run the UPDATE against
every row whose `comic_id` matches, then 404 exactly when `RETURNING *` hands
back no row. -/
def updateComic (id : String) (b : UpdateBody) (now : Nat) (st : List Comic) :
    (Except ApiErr Comic) × List Comic :=
  let st' := st.map fun r => if r.comic_id == id then applyUpdate b now r else r
  match st'.filter (fun r => r.comic_id == id) with
  | [] => (.error .notFound, st')
  | r :: _ => (.ok r, st')

/-- PATCH `/api/comics/:id/chapter` (`server.js` lines 523-551): 400 when the
`chapter` body field is falsy, otherwise set exactly `chapter` and
`last_updated` on the matching rows and 404 when none matched. -/
def patchChapter (id : String) (chv : Option String) (now : Nat) (st : List Comic) :
    (Except ApiErr Comic) × List Comic :=
  if jsFalsy chv then
    (.error (.badRequest "Chapter is required"), st)
  else
    let st' := st.map fun r =>
      if r.comic_id == id then { r with chapter := some (strOf chv), last_updated := now }
      else r
    match st'.filter (fun r => r.comic_id == id) with
    | [] => (.error .notFound, st')
    | r :: _ => (.ok r, st')

/-- Character classes of a SQL LIKE pattern: `%` matches any sequence, `_`
any single character, everything else itself. -/
inductive Pat
  | any
  | one
  | lit (c : Char)
deriving DecidableEq

/-- Reading of a pattern string by LIKE: `%` and `_` are wildcards, the
default escape character backslash quotes the character after it (so
`\%`, `\_` and `\\` are literals, and a backslash before any other
character also just quotes it).  A pattern ending in a lone escape
character is an error in Postgres (22025); it cannot arise from the
handler, whose pattern always ends in `%`, and is mapped to the empty
pattern here. -/
def parsePat : List Char → List Pat
  | [] => []
  | c :: rest =>
    if c == '\\' then
      match rest with
      | [] => []
      | d :: rest2 => Pat.lit d :: parsePat rest2
    else if c == '%' then Pat.any :: parsePat rest
    else if c == '_' then Pat.one :: parsePat rest
    else Pat.lit c :: parsePat rest

/-- Character comparison of ILIKE: equal up to case folding. -/
def lowEq (a b : Char) : Bool := a.toLower == b.toLower

/-- Suffixes of a character list, longest first: the positions at which a
`%` can stop consuming. -/
def tails : List Char → List (List Char)
  | [] => [[]]
  | c :: ts => (c :: ts) :: tails ts

/-- Matching of a text against a LIKE pattern, case-insensitive (Postgres
ILIKE): `%` consumes any run of characters (the rest of the pattern matches
some suffix of the text), `_` exactly one character, a literal its
case-folded self. -/
def likeM : List Pat → List Char → Bool
  | [], t => t.isEmpty
  | .any :: ps, t => (tails t).any fun t2 => likeM ps t2
  | .one :: ps, t =>
    match t with
    | [] => false
    | _ :: ts => likeM ps ts
  | .lit a :: ps, t =>
    match t with
    | [] => false
    | c :: ts => lowEq a c && likeM ps ts

/-- Search filter of the comics listing: the handler binds the parameter
`'%' ++ search ++ '%'` and compares with ILIKE (`server.js` lines 331-334). -/
def ilikeContains (search text : String) : Bool :=
  likeM (parsePat ("%" ++ search ++ "%").toList) text.toList

/-- Case-insensitive prefix test on character lists. -/
def headMatch : List Char → List Char → Bool
  | [], _ => true
  | _ :: _, [] => false
  | a :: as, b :: bs => lowEq a b && headMatch as bs

/-- Case-insensitive containment of a character list in another: some suffix
of the haystack starts with the needle. -/
def subMatch (needle : List Char) : List Char → Bool
  | [] => headMatch needle []
  | c :: ts => headMatch needle (c :: ts) || subMatch needle ts

/-- Modelled from the spec: "search performs a case-insensitive substring
match" — the haystack contains the search string up to case. -/
def containsCI (needle hay : String) : Bool := subMatch needle.toList hay.toList

/-- Search strings that LIKE reads as plain text: free of the `%` and `_`
wildcards and of the backslash escape character. -/
def noWild (s : String) : Bool :=
  s.toList.all fun c => c != '%' && c != '_' && c != '\\'

/-- Query parameters of GET `/api/comics`; in the handler `page` defaults to
1 and `limit` to 100 when absent. -/
structure ComicsQuery where
  category : Option String
  search : Option String
  page : Nat
  limit : Nat

/-- WHERE clause built by the listing handler (`server.js` lines 326-335):
an exact `category_id` comparison when the `category` parameter is truthy,
AND an ILIKE of title or description against the search pattern when the
`search` parameter is truthy.  A NULL description never ILIKE-matches. -/
def rowMatches (q : ComicsQuery) (r : Comic) : Bool :=
  (if jsFalsy q.category then true else r.category_id == strOf q.category)
    && (if jsFalsy q.search then true
        else
          ilikeContains (strOf q.search) r.title
            || (match r.description with
                | none => false
                | some d => ilikeContains (strOf q.search) d))

/-- Reading of the same WHERE clause with the spec's words: substring
containment in place of the LIKE pattern match. -/
def specRowMatches (q : ComicsQuery) (r : Comic) : Bool :=
  (if jsFalsy q.category then true else r.category_id == strOf q.category)
    && (if jsFalsy q.search then true
        else
          containsCI (strOf q.search) r.title
            || (match r.description with
                | none => false
                | some d => containsCI (strOf q.search) d))

/-- GET `/api/comics` (`server.js` lines 303-352): `none` for a missing table
or a thrown query (both answered with `[]`); otherwise filter, order by
`last_updated` descending, and page with `LIMIT limit OFFSET (page-1)*limit`.
The response is the bare row list, with no total count. -/
def listComics (q : ComicsQuery) (db : Option (List Comic)) : List Comic :=
  match db with
  | none => []
  | some rows =>
    let sorted := List.insertionSort recentFirst (rows.filter (rowMatches q))
    (sorted.drop ((q.page - 1) * q.limit)).take q.limit

/-- Column sets carrying a unique constraint on the `comics` table, per its
DDL (`server.js` lines 78-92): the SERIAL primary key `id` and the UNIQUE
`comic_id`.  No unique constraint or index covers (title, category_id), and
the table is only ever created by this statement (`CREATE TABLE IF NOT
EXISTS`). -/
def comicsUniqueKeys : List (List String) := [["id"], ["comic_id"]]

/-- Conflict target named by the bulk-insert statement (`server.js` line
642): `ON CONFLICT (title, category_id)`. -/
def importConflictTarget : List String := ["title", "category_id"]

/-- Postgres planning rule for `INSERT ... ON CONFLICT (cols)`: the statement
is accepted only when a unique index or constraint covers exactly those
columns (the arbiter index); otherwise it is rejected with error 42P10
("there is no unique or exclusion constraint matching the ON CONFLICT
specification") before any row is written. -/
def hasArbiterIndex (target : List String) : Bool :=
  comicsUniqueKeys.any fun k =>
    k.all (fun c => target.contains c) && target.all (fun c => k.contains c)

/-- One element of the `comics` array posted to `/api/comics/import`; every
field may be absent. -/
structure ImportEntry where
  title : Option String
  category_id : Option String
  subcategory : Option String
  chapter : Option String
  rating : Option String
  tags : Option (List String)
  description : Option String
deriving DecidableEq

/-- Errors a single bulk-insert statement can raise: the missing arbiter
index (42P10) or a NOT NULL violation on title/category_id (23502). -/
inductive SqlErr
  | noArbiter
  | notNull
deriving DecidableEq

/-- One `INSERT ... ON CONFLICT (title, category_id) DO UPDATE` statement of
the import loop (`server.js` lines 637-658).  Postgres first requires an
arbiter index for the conflict target; only with one in place would the
statement insert the fresh row, or, on a (title, category_id) conflict,
update exactly `chapter`, `rating` and `last_updated` to the EXCLUDED
values, keeping every other stored field. -/
def importOne (e : ImportEntry) (genId : String) (now : Nat) (st : List Comic) :
    Except SqlErr (List Comic × Comic) :=
  if !hasArbiterIndex importConflictTarget then .error .noArbiter
  else
    match e.title, e.category_id with
    | some t, some cid =>
      let hit := fun r => r.title == t && r.category_id == cid
      match st.filter hit with
      | [] =>
        let row : Comic :=
          { comic_id := genId
            title := t
            category_id := cid
            subcategory := some (jsOrStr e.subcategory "")
            chapter := e.chapter
            rating := some (jsOrStr e.rating "none")
            tags := e.tags.getD []
            description := some (jsOrStr e.description "")
            last_updated := now
            created_at := now }
        .ok (st ++ [row], row)
      | old :: _ =>
        let upd := fun r =>
          { r with
            chapter := e.chapter
            rating := some (jsOrStr e.rating "none")
            last_updated := now }
        .ok (st.map fun r => if hit r then upd r else r, upd old)
    | _, _ => .error .notNull

/-- Response of POST `/api/comics/import`: HTTP status, the `imported` rows
of the response body (its `message` carries their count), and the comics
table after the call. -/
structure ImportOutcome where
  status : Nat
  imported : List Comic
  table : List Comic
deriving DecidableEq

/-- Sequential loop of the import handler: one statement per entry, each with
a freshly generated `comic_id`; the first statement error is caught by the
surrounding try and answered with a bare 500, the prior iterations staying
committed (no transaction wraps the batch). -/
def importLoop (entries : List ImportEntry) (genIds : Nat → String) (i : Nat) (now : Nat)
    (st : List Comic) (acc : List Comic) : ImportOutcome :=
  match entries with
  | [] => ⟨200, acc, st⟩
  | e :: rest =>
    match importOne e (genIds i) now st with
    | .error _ => ⟨500, [], st⟩
    | .ok (st', row) => importLoop rest genIds (i + 1) now st' (acc ++ [row])

/-- POST `/api/comics/import` (`server.js` lines 623-672): 400 when the
body's `comics` is not an array (`payload = none`), otherwise the sequential
per-entry loop. -/
def bulkImport (payload : Option (List ImportEntry)) (genIds : Nat → String) (now : Nat)
    (st : List Comic) : ImportOutcome :=
  match payload with
  | none => ⟨400, [], st⟩
  | some entries => importLoop entries genIds 0 now st []

/-- Counters of the shared connection pool: connections handed out by
`pool.connect()` and given back by `client.release()`. -/
structure PoolStat where
  acquired : Nat
  released : Nat
deriving DecidableEq

/-- Outcomes of the awaited store calls of the diagnostics endpoint that can
throw out of its `try` block: `pool.connect()`, `SELECT NOW()`, and the
`information_schema` table listing.  The per-table count loop catches each
count error itself (`server.js` lines 171-178), performs no pool operation,
and so never leaves the block. -/
structure DebugOracle where
  connectOk : Bool
  nowOk : Bool
  tablesOk : Bool

/-- Body of the `try` block of GET `/api/debug/db` (`server.js` lines
153-194), threading the pool counters: `pool.connect()` increments
`acquired`; each later await that fails throws out of the block with the
counters as they stand; `client.release()` (line 180) increments `released`
on the straight-line path only — the `catch` block (lines 196-206) sends the
500 response without touching the client. -/
def debugTry (o : DebugOracle) (s : PoolStat) : Except PoolStat PoolStat :=
  if !o.connectOk then .error s
  else
    let s1 : PoolStat := ⟨s.acquired + 1, s.released⟩
    if !o.nowOk then .error s1
    else if !o.tablesOk then .error s1
    else .ok ⟨s1.acquired, s1.released + 1⟩

/-- GET `/api/debug/db` as observed from outside: HTTP status (200 from the
try block, 500 from the catch) and the pool counters after the request. -/
def debugDb (o : DebugOracle) : Nat × PoolStat :=
  match debugTry o ⟨0, 0⟩ with
  | .ok s => (200, s)
  | .error s => (500, s)

theorem applyUpdate_comic_id (b : UpdateBody) (now : Nat) (r : Comic) :
    (applyUpdate b now r).comic_id = r.comic_id := rfl

theorem applyUpdate_category_id (b : UpdateBody) (now : Nat) (r : Comic) :
    (applyUpdate b now r).category_id = r.category_id := rfl

theorem applyUpdate_subcategory (b : UpdateBody) (now : Nat) (r : Comic) :
    (applyUpdate b now r).subcategory = r.subcategory := rfl

theorem applyUpdate_created_at (b : UpdateBody) (now : Nat) (r : Comic) :
    (applyUpdate b now r).created_at = r.created_at := rfl

/-- A keyed UPDATE maps the table row-wise; rows surviving the WHERE filter
afterwards are exactly the updated images of the rows that matched before,
provided the update keeps the key. -/
theorem keyed_update_filter (key : Comic → Bool) (g : Comic → Comic)
    (hg : ∀ r, key (g r) = key r) (st : List Comic) :
    (st.map fun r => if key r then g r else r).filter key = (st.filter key).map g := by
  induction st with
  | nil => rfl
  | cons a as ih =>
    cases h : key a with
    | true => simp [List.filter_cons, h, hg, ih]
    | false => simp [List.filter_cons, h, ih]

/-- A keyed UPDATE returns no row exactly when no stored row has the key. -/
theorem keyed_update_filter_nil (key : Comic → Bool) (g : Comic → Comic)
    (hg : ∀ r, key (g r) = key r) (st : List Comic) :
    ((st.map fun r => if key r then g r else r).filter key = [] ↔
      ∀ r ∈ st, key r = false) := by
  rw [keyed_update_filter key g hg st]
  simp [List.filter_eq_nil_iff]

/-- A keyed UPDATE that matches no row leaves the table unchanged. -/
theorem keyed_update_id (key : Comic → Bool) (g : Comic → Comic) (st : List Comic)
    (h : ∀ r ∈ st, key r = false) :
    (st.map fun r => if key r then g r else r) = st := by
  induction st with
  | nil => rfl
  | cons a as ih =>
    have ha : key a = false := h a (List.mem_cons_self a as)
    simp only [List.map_cons, ha, Bool.false_eq_true, if_false]
    exact congrArg (a :: ·) (ih fun r hr => h r (List.mem_cons_of_mem a hr))

/-- Row at position `i` after a keyed UPDATE. -/
theorem keyed_update_get (key : Comic → Bool) (g : Comic → Comic) (st : List Comic)
    (i : Nat) (h : i < st.length)
    (h' : i < (st.map fun r => if key r then g r else r).length) :
    (st.map fun r => if key r then g r else r).get ⟨i, h'⟩ =
      if key (st.get ⟨i, h⟩) then g (st.get ⟨i, h⟩) else st.get ⟨i, h⟩ := by
  simp

/-- Resulting table of the PUT handler, whatever the response. -/
theorem updateComic_table (id : String) (b : UpdateBody) (now : Nat) (st : List Comic) :
    (updateComic id b now st).2 =
      st.map fun r => if r.comic_id == id then applyUpdate b now r else r := by
  unfold updateComic
  dsimp only
  split <;> rfl

/-- Response of the PUT handler: 404 exactly when the RETURNING set is
empty. -/
theorem updateComic_res (id : String) (b : UpdateBody) (now : Nat) (st : List Comic) :
    ((updateComic id b now st).1 = Except.error ApiErr.notFound ↔
      ∀ r ∈ st, (r.comic_id == id) = false) := by
  have hg : ∀ r : Comic, ((applyUpdate b now r).comic_id == id) = (r.comic_id == id) :=
    fun r => by rw [applyUpdate_comic_id]
  unfold updateComic
  dsimp only
  rw [← keyed_update_filter_nil (fun r => r.comic_id == id) (applyUpdate b now) hg st]
  split <;> simp_all

/-- Resulting table of the chapter PATCH once validation passed. -/
theorem patchChapter_table (id : String) (chv : Option String) (now : Nat) (st : List Comic)
    (h : jsFalsy chv = false) :
    (patchChapter id chv now st).2 =
      st.map fun r =>
        if r.comic_id == id then { r with chapter := some (strOf chv), last_updated := now }
        else r := by
  unfold patchChapter
  rw [if_neg (by simp [h])]
  dsimp only
  split <;> rfl

/-- Response of the chapter PATCH: 404 exactly when the RETURNING set is
empty. -/
theorem patchChapter_res_notFound (id : String) (chv : Option String) (now : Nat)
    (st : List Comic) (h : jsFalsy chv = false) :
    ((patchChapter id chv now st).1 = Except.error ApiErr.notFound ↔
      ∀ r ∈ st, (r.comic_id == id) = false) := by
  have hg : ∀ r : Comic,
      (({ r with chapter := some (strOf chv), last_updated := now } : Comic).comic_id == id) =
        (r.comic_id == id) := fun r => rfl
  unfold patchChapter
  rw [if_neg (by simp [h])]
  dsimp only
  rw [← keyed_update_filter_nil (fun r => r.comic_id == id)
    (fun r => { r with chapter := some (strOf chv), last_updated := now }) hg st]
  split <;> simp_all

/-- C8: PATCH `/api/comics/:id/chapter` rejects an absent or empty chapter
value with the 400 validation error and an untouched store; with a chapter
value present it 404s on an unknown `comic_id` and leaves the store
unchanged, and otherwise rewrites exactly the `chapter` and `last_updated`
fields of the matching row, every other row and every other field staying as
stored. -/
theorem patchChapter_spec (id : String) (chv : Option String) (now : Nat) (st : List Comic) :
    (jsFalsy chv = true →
      patchChapter id chv now st =
        (Except.error (ApiErr.badRequest "Chapter is required"), st))
    ∧ (jsFalsy chv = false → (∀ r ∈ st, ¬ r.comic_id = id) →
      patchChapter id chv now st = (Except.error ApiErr.notFound, st))
    ∧ (jsFalsy chv = false → ∀ i, ∀ h : i < st.length,
      (¬ st[i].comic_id = id → (patchChapter id chv now st).2[i]? = some st[i])
      ∧ (st[i].comic_id = id →
        (patchChapter id chv now st).2[i]? =
          some { st[i] with chapter := some (strOf chv), last_updated := now })) := by
  refine ⟨fun hf => ?_, fun h hno => ?_, fun h i hi => ?_⟩
  · unfold patchChapter
    rw [if_pos (by simp [hf])]
  · have hkey : ∀ r ∈ st, (r.comic_id == id) = false := fun r hr => by
      simpa using hno r hr
    have h1 : (patchChapter id chv now st).1 = Except.error ApiErr.notFound :=
      (patchChapter_res_notFound id chv now st h).2 hkey
    have h2 := patchChapter_table id chv now st h
    rw [keyed_update_id _ _ st hkey] at h2
    calc patchChapter id chv now st
        = ((patchChapter id chv now st).1, (patchChapter id chv now st).2) := rfl
      _ = (Except.error ApiErr.notFound, st) := by rw [h1, h2]
  · rw [patchChapter_table id chv now st h]
    constructor <;> intro hcid <;>
      simp [List.getElem?_map, List.getElem?_eq_getElem hi, hcid]

/-- C3: PUT `/api/comics/:id` 404s exactly when no row has the id; on a hit
it refreshes `last_updated`, keeps every field whose supplied value is
absent, and for a chapter-only body the stored row changes in exactly
`chapter` and `last_updated`, every other field staying identical. -/
theorem updateComic_merge_spec (id : String) (b : UpdateBody) (now : Nat) (st : List Comic) :
    ((updateComic id b now st).1 = Except.error ApiErr.notFound ↔ ∀ r ∈ st, ¬ r.comic_id = id)
    ∧ (∀ i, ∀ h : i < st.length,
      (¬ st[i].comic_id = id → (updateComic id b now st).2[i]? = some st[i])
      ∧ (st[i].comic_id = id →
        ∃ r', (updateComic id b now st).2[i]? = some r'
          ∧ r'.last_updated = now
          ∧ (b.chapter = none → r'.chapter = st[i].chapter)
          ∧ (b.rating = none → r'.rating = st[i].rating)
          ∧ (b.title = none → r'.title = st[i].title)
          ∧ (b.tags = none → r'.tags = st[i].tags)
          ∧ (b.description = none → r'.description = st[i].description)
          ∧ (∀ c, b = ⟨some c, none, none, none, none⟩ →
              r' = { st[i] with chapter := some c, last_updated := now }))) := by
  constructor
  · rw [updateComic_res]
    constructor <;> intro hk r hr
    · simpa using hk r hr
    · simpa using hk r hr
  · intro i hi
    constructor <;> intro hcid
    · rw [updateComic_table]
      simp [List.getElem?_map, List.getElem?_eq_getElem hi, hcid]
    · refine ⟨applyUpdate b now st[i], ?_, rfl, ?_, ?_, ?_, ?_, ?_, ?_⟩
      · rw [updateComic_table]
        simp [List.getElem?_map, List.getElem?_eq_getElem hi, hcid]
      · intro hc; simp [applyUpdate, coalesce, hc]
      · intro hc; simp [applyUpdate, coalesce, hc]
      · intro hc; simp [applyUpdate, hc]
      · intro hc; simp [applyUpdate, hc]
      · intro hc; simp [applyUpdate, coalesce, hc]
      · intro c hb; subst hb; rfl

/-- C9: the PUT handler can touch only `chapter`, `rating`, `title`, `tags`,
`description` (and the refreshed `last_updated`): for every request body the
stored `comic_id`, `category_id`, `subcategory` and `created_at` of every
row survive unchanged — the handler destructures no other body field, so
supplied values for those columns never reach the query. -/
theorem updateComic_immutable_columns (id : String) (b : UpdateBody) (now : Nat)
    (st : List Comic) :
    ((updateComic id b now st).2.map fun r =>
        (r.comic_id, r.category_id, r.subcategory, r.created_at)) =
      st.map fun r => (r.comic_id, r.category_id, r.subcategory, r.created_at) := by
  rw [updateComic_table, List.map_map]
  refine List.map_congr_left fun r _ => ?_
  by_cases hc : (r.comic_id == id) = true
  · simp [Function.comp, hc, applyUpdate_comic_id, applyUpdate_category_id,
      applyUpdate_subcategory, applyUpdate_created_at]
  · simp [Function.comp, hc]

/-- Pointwise agreement of the handler's reading-count filter with the
claim's wording. -/
theorem isReading_eq_spec (r : Comic) :
    isReading r =
      decide (¬ r.chapter = none ∧ ¬ r.chapter = some "" ∧ ¬ r.chapter = some "0") := by
  cases h : r.chapter with
  | none => simp [isReading, h]
  | some s => by_cases h1 : s = "" <;> by_cases h2 : s = "0" <;> simp [isReading, h, h1, h2]

/-- C7: `getStats` reports the comic count, the category count (built-in
list length when the table is absent), and the count of comics whose chapter
is non-null, non-empty and not the literal "0"; on an empty comics table
with the seeded categories it answers exactly zero items, 16 categories,
zero reading. -/
theorem getStats_spec :
    (∀ db : DbState,
      (getStats db).totalItems = (db.comics.getD []).length
      ∧ (getStats db).readingCount = (db.comics.getD []).countP
          (fun r => decide (¬ r.chapter = none ∧ ¬ r.chapter = some "" ∧ ¬ r.chapter = some "0"))
      ∧ (getStats db).totalCategories =
          match db.categories with
          | none => defaultCategories.length
          | some rows => rows.length)
    ∧ defaultCategories.length = 16
    ∧ getStats ⟨some [], some defaultCategories⟩ = ⟨0, 16, 0⟩ := by
  refine ⟨fun db => ⟨?_, ?_, ?_⟩, rfl, rfl⟩
  · rcases db with ⟨c, k⟩
    cases c <;> simp [getStats]
  · rcases db with ⟨c, k⟩
    cases c with
    | none => simp [getStats]
    | some rows =>
      simp only [getStats, Option.getD_some, List.countP_eq_length_filter]
      exact congrArg List.length (List.filter_congr fun r _ => isReading_eq_spec r)
  · rcases db with ⟨c, k⟩
    cases k <;> cases c <;> simp [getStats]

/-- C10: the categories listing never serves an empty list — a successful
query with zero rows falls back to the 16-entry default list, as does any
failure. -/
theorem listCategories_never_empty :
    (∀ db : Option (List Category), ¬ listCategories db = [])
    ∧ listCategories (some []) = defaultCategories
    ∧ defaultCategories.length = 16 := by
  refine ⟨fun db => ?_, rfl, rfl⟩
  cases db with
  | none => simp [listCategories, defaultCategories]
  | some rows =>
    dsimp [listCategories]
    split
    · simp [defaultCategories]
    · next hlen =>
      intro hnil
      rw [hnil] at hlen
      simp at hlen

/-- C6 counterexample: a successful query against an empty categories table
is answered with the 16 default rows, not with the (empty) set of stored
rows — so "on success it returns all stored rows" fails at `rows = []`. -/
theorem listCategories_empty_success_cex :
    listCategories (some []) = defaultCategories
    ∧ ¬ defaultCategories = ([] : List Category) := by
  refine ⟨rfl, ?_⟩
  simp [defaultCategories]

/-- C6 (amended): a failed categories query is answered with exactly the
16-entry default list; a successful one with at least one row is answered
with precisely the stored rows ordered by name ascending; a successful one
with zero rows falls back to the default list as well. -/
theorem listCategories_fallback_spec :
    (listCategories none = defaultCategories ∧ defaultCategories.length = 16)
    ∧ (∀ rows : List Category, ¬ rows = [] →
        (listCategories (some rows)).Perm rows
        ∧ List.Sorted catNameLe (listCategories (some rows)))
    ∧ listCategories (some []) = defaultCategories := by
  refine ⟨⟨rfl, rfl⟩, fun rows hne => ?_, rfl⟩
  have hlen : (List.insertionSort catNameLe rows).length = rows.length :=
    (List.perm_insertionSort catNameLe rows).length_eq
  have hcond : ((List.insertionSort catNameLe rows).length == 0) = false := by
    rw [hlen]
    cases rows with
    | nil => exact absurd rfl hne
    | cons a as => rfl
  constructor
  · dsimp [listCategories]
    rw [hcond]
    exact List.perm_insertionSort catNameLe rows
  · dsimp [listCategories]
    rw [hcond]
    exact List.sorted_insertionSort catNameLe rows

/-- C2: the diagnostics handler releases its acquired connection only on the
straight-line path.  When `pool.connect()` succeeds but the `SELECT NOW()`
query (or the table listing) then throws, the catch block answers 500 with
the connection still held: one acquisition, zero releases — refuting
release-on-every-exit-path.  The success path and the failed-connect path
are balanced. -/
theorem debugDb_leaks_on_failed_query :
    debugDb ⟨true, false, true⟩ = (500, ⟨1, 0⟩)
    ∧ debugDb ⟨true, true, false⟩ = (500, ⟨1, 0⟩)
    ∧ debugDb ⟨true, true, true⟩ = (200, ⟨1, 1⟩)
    ∧ debugDb ⟨false, true, true⟩ = (500, ⟨0, 0⟩) := by
  refine ⟨rfl, rfl, rfl, rfl⟩

/-- C4 counterexample: a body whose `title` is present but empty is not
missing its title, yet the create handler rejects it with the 400 validation
error — JS falsiness conflates absent and empty. -/
theorem createComic_empty_title_cex :
    (createComic ⟨some "", some "ngon", none, none, none, none, none⟩ "comic_1" 5 []).1 =
      Except.error (ApiErr.badRequest "Title and category_id are required")
    ∧ ¬ (some "" : Option String) = none := by
  refine ⟨rfl, by simp⟩

/-- C4 (amended): POST `/api/comics` answers the 400 validation error exactly
when `title` or `category_id` is absent or empty; otherwise (with a fresh
generated id) it appends one row carrying the generated `comic_id`, both
timestamps at now, the supplied fields, and the documented defaults for the
absent ones, and returns that row. -/
theorem createComic_validation_and_defaults (b : CreateBody) (genId : String) (now : Nat)
    (st : List Comic) :
    ((createComic b genId now st).1 =
        Except.error (ApiErr.badRequest "Title and category_id are required")
      ↔ (jsFalsy b.title = true ∨ jsFalsy b.category_id = true))
    ∧ (jsFalsy b.title = false → jsFalsy b.category_id = false →
        st.any (fun r => r.comic_id == genId) = false →
        ∃ row : Comic,
          createComic b genId now st = (Except.ok row, st ++ [row])
          ∧ row.comic_id = genId
          ∧ row.title = strOf b.title
          ∧ row.category_id = strOf b.category_id
          ∧ row.last_updated = now
          ∧ row.created_at = now
          ∧ (b.subcategory = none → row.subcategory = some "")
          ∧ (b.chapter = none → row.chapter = some "")
          ∧ (b.rating = none → row.rating = some "none")
          ∧ (b.tags = none → row.tags = [])
          ∧ (b.description = none → row.description = some "")) := by
  constructor
  · constructor
    · intro h1
      by_cases hta : jsFalsy b.title = true
      · exact Or.inl hta
      by_cases hca : jsFalsy b.category_id = true
      · exact Or.inr hca
      exfalso
      have ht : jsFalsy b.title = false := by simpa using hta
      have hc : jsFalsy b.category_id = false := by simpa using hca
      unfold createComic at h1
      rw [if_neg (by simp [ht, hc])] at h1
      by_cases hfr : st.any (fun r => r.comic_id == genId) = true
      · rw [if_pos (by simpa using hfr)] at h1
        simp at h1
      · rw [if_neg (by simpa using hfr)] at h1
        simp at h1
    · intro h1
      unfold createComic
      rw [if_pos (by rcases h1 with h | h <;> simp [h])]
  · intro ht hc hfr
    refine ⟨newComicRow b genId now,
      ?_, rfl, rfl, rfl, rfl, rfl, fun h => by simp [newComicRow, jsOrStr, jsFalsy, h],
      fun h => by simp [newComicRow, jsOrStr, jsFalsy, h],
      fun h => by simp [newComicRow, jsOrStr, jsFalsy, h],
      fun h => by simp [newComicRow, h],
      fun h => by simp [newComicRow, jsOrStr, jsFalsy, h]⟩
    unfold createComic
    rw [if_neg (by simp [ht, hc]), if_neg (by simp [hfr])]

/-- C1: the `comics` DDL declares no unique constraint over the import's
conflict target (title, category_id), so Postgres rejects every
`INSERT ... ON CONFLICT (title, category_id)` of the import loop with 42P10
and the handler's catch answers a bare 500: importing one entry into a
freshly initialized (empty) comics table writes nothing and returns no rows
— the documented upsert never happens. -/
theorem bulkImport_no_arbiter_500 :
    hasArbiterIndex importConflictTarget = false
    ∧ bulkImport (some [⟨some "A", some "ngon", none, some "1", none, none, none⟩])
        (fun i => "comic_" ++ toString i) 7 [] = ⟨500, [], []⟩
    ∧ (∀ st : List Comic, ∀ e : ImportEntry, ∀ rest : List ImportEntry,
        ∀ gen : Nat → String, ∀ now : Nat,
        bulkImport (some (e :: rest)) gen now st = ⟨500, [], st⟩) := by
  refine ⟨rfl, rfl, fun st e rest gen now => rfl⟩

theorem likeM_any_nil (ps : List Pat) : likeM (Pat.any :: ps) [] = likeM ps [] := by
  simp [likeM, tails]

theorem likeM_any_cons (ps : List Pat) (c : Char) (ts : List Char) :
    likeM (Pat.any :: ps) (c :: ts) = (likeM ps (c :: ts) || likeM (Pat.any :: ps) ts) := by
  simp [likeM, tails]

/-- A trailing `%` matches every text. -/
theorem likeM_any_univ (t : List Char) : likeM [Pat.any] t = true := by
  induction t with
  | nil => rfl
  | cons c ts ih => rw [likeM_any_cons, ih]; simp

/-- A literal pattern followed by `%` matches exactly the texts beginning
with the literal word, up to case. -/
theorem likeM_lit_any (s t : List Char) :
    likeM (s.map Pat.lit ++ [Pat.any]) t = headMatch s t := by
  induction s generalizing t with
  | nil => simpa [headMatch] using likeM_any_univ t
  | cons a as ih =>
    cases t with
    | nil => simp [likeM, headMatch]
    | cons c ts => simp [likeM, headMatch, ih]

/-- A pattern of the shape `%word%` (word literal) matches exactly the texts
containing the word, up to case. -/
theorem likeM_any_lit_any (s t : List Char) :
    likeM (Pat.any :: (s.map Pat.lit ++ [Pat.any])) t = subMatch s t := by
  induction t with
  | nil => rw [likeM_any_nil, likeM_lit_any]; rfl
  | cons c ts ih => rw [likeM_any_cons, likeM_lit_any, ih]; rfl

/-- A leading `%` of a pattern is read as the sequence wildcard. -/
theorem parsePat_pct (rest : List Char) :
    parsePat ('%' :: rest) = Pat.any :: parsePat rest := by
  rw [parsePat.eq_def]
  simp

/-- Characters that are neither wildcard nor escape pass through as
literals, whatever follows them. -/
theorem parsePat_plain (l rest : List Char)
    (h : ∀ c ∈ l, ¬ c = '%' ∧ ¬ c = '_' ∧ ¬ c = '\\') :
    parsePat (l ++ rest) = l.map Pat.lit ++ parsePat rest := by
  induction l with
  | nil => rfl
  | cons c l2 ih =>
    have hc := h c (List.mem_cons_self c l2)
    have ihh := ih fun d hd => h d (List.mem_cons_of_mem c hd)
    rw [parsePat.eq_def]
    simp [hc.1, hc.2.1, hc.2.2, ihh]

/-- Pattern read off the string the handler wraps around a plain-text
(wildcard- and escape-free) search term. -/
theorem parsePat_wrap_noWild (s : String) (h : noWild s = true) :
    parsePat ("%" ++ s ++ "%").toList = Pat.any :: (s.toList.map Pat.lit ++ [Pat.any]) := by
  have h0 : ("%" ++ s ++ "%").toList = '%' :: (s.toList ++ ['%']) := by
    simp [String.toList]
  have hpl : ∀ c ∈ s.toList, ¬ c = '%' ∧ ¬ c = '_' ∧ ¬ c = '\\' := by
    intro c hc
    have hc2 := List.all_eq_true.mp h c hc
    simp only [Bool.and_eq_true, bne_iff_ne, ne_eq] at hc2
    exact ⟨hc2.1.1, hc2.1.2, hc2.2⟩
  rw [h0, parsePat_pct, parsePat_plain s.toList ['%'] hpl]
  simp [parsePat]

/-- On a plain-text search string (no wildcard, no escape), the handler's
ILIKE filter is exactly case-insensitive substring containment. -/
theorem ilikeContains_noWild (s t : String) (h : noWild s = true) :
    ilikeContains s t = containsCI s t := by
  unfold ilikeContains containsCI
  rw [parsePat_wrap_noWild s h, likeM_any_lit_any]

/-- Escape handling of the model: in the pattern `%a\c%` the backslash
quotes the `c`, so the search string "a\c" ILIKE-matches the title "ac"
although "ac" does not contain it — the reason `noWild` must exclude the
escape character along with the wildcards. -/
theorem ilike_escape_example :
    ilikeContains "a\\c" "ac" = true
    ∧ containsCI "a\\c" "ac" = false
    ∧ noWild "a\\c" = false := by
  refine ⟨by decide, by decide, by decide⟩

/-- On a wildcard-free search string the row filter of the listing handler
coincides with the spec's containment reading. -/
theorem rowMatches_noWild (q : ComicsQuery) (h : noWild (strOf q.search) = true) (r : Comic) :
    rowMatches q r = specRowMatches q r := by
  have he : ∀ t, ilikeContains (strOf q.search) t = containsCI (strOf q.search) t :=
    fun t => ilikeContains_noWild _ t h
  unfold rowMatches specRowMatches
  simp only [he]

/-- C5 counterexample: with the search string "a_c" the listing returns the
row titled "abc" — the SQL `_` wildcard matches the `b` — although neither
its title nor its (null) description contains "a_c"; so "matches rows whose
title or description contains the search string" fails for wildcard-bearing
search strings. -/
theorem listComics_wildcard_search_cex :
    listComics ⟨none, some "a_c", 1, 100⟩
        (some [⟨"c1", "abc", "ngon", none, none, none, [], none, 0, 0⟩]) =
      [⟨"c1", "abc", "ngon", none, none, none, [], none, 0, 0⟩]
    ∧ containsCI "a_c" "abc" = false
    ∧ (⟨"c1", "abc", "ngon", none, none, none, [], none, 0, 0⟩ : Comic).description = none := by
  refine ⟨by decide, by decide, rfl⟩

/-- C5 (amended): the listing filters by exact `category_id` match AND a
case-insensitive ILIKE of title-or-description against `%search%` — plain
substring containment of the search string whenever it carries no `%`/`_`
wildcard and no backslash escape character — then orders by `last_updated`
descending and pages with `LIMIT limit OFFSET (page-1)*limit`, returning
the bare row list with no total count. -/
theorem listComics_spec (q : ComicsQuery) (rows : List Comic) :
    (noWild (strOf q.search) = true →
      rows.filter (rowMatches q) = rows.filter (specRowMatches q))
    ∧ ∃ all : List Comic,
        all.Perm (rows.filter (rowMatches q))
        ∧ List.Sorted recentFirst all
        ∧ listComics q (some rows) = (all.drop ((q.page - 1) * q.limit)).take q.limit := by
  constructor
  · intro h
    exact List.filter_congr fun r _ => rowMatches_noWild q h r
  · exact ⟨List.insertionSort recentFirst (rows.filter (rowMatches q)),
      List.perm_insertionSort recentFirst _,
      List.sorted_insertionSort recentFirst _, rfl⟩

end ComicBackend
